import Mathlib

/-!
Threshold Likelihood & Similarity Engine — verification development.

The repository is a React frontend (`frontend/src/components/*.js`) plus a
Docker deployment file for a Django backend.  The algorithmic core described
by the specification (StatExtractor, MatchupFilter, LikelihoodEstimator,
SimilarityIndex, TrendAggregator) lives in that backend, whose code is not
among the available sources; only its callers (the frontend fetch sites) are.
Those core components are therefore modelled here from the specification's
own words, while the frontend logic (`filteredTeams` and `handleSubmit` of
`PredictionForm.js`) is embedded directly from the JavaScript source.

Likelihood percentages are computed in exact natural-number arithmetic
(`roundPct`), proved below to agree with the specification's real-valued
`round` of the corresponding rational expression.
-/

namespace NbaEngine

/-- Modelled from the spec: §2/§4.1's closed enumeration of the five
recognized stat categories (the spec reframes the backend's string dispatch
as a closed enumeration with a total mapping function). -/
inductive StatCategory where
  | points
  | rebounds
  | assists
  | blocks
  | steals
deriving DecidableEq, Repr

/-- Modelled from the spec: §3 GameRecord — one player's performance in one
game: a calendar date (encoded as a totally ordered natural number), an
opponent team identifier, and an integer value for each of the five stat
categories. -/
structure GameRecord where
  date : Nat
  opponent : String
  pts : Int
  reb : Int
  ast : Int
  blk : Int
  stl : Int
deriving DecidableEq, Repr

/-- Modelled from the spec: §4.1 StatExtractor's total mapping from a
recognized category to the accessor for that category's integer value. -/
def statValue : StatCategory → GameRecord → Int
  | .points, g => g.pts
  | .rebounds, g => g.reb
  | .assists, g => g.ast
  | .blocks, g => g.blk
  | .steals, g => g.stl

/-- Modelled from the spec: §4.1 StatExtractor's resolution of a category
name string, failing on anything outside the five recognized names. -/
def resolveCategory (s : String) : Option StatCategory :=
  if s = "points" then some .points
  else if s = "rebounds" then some .rebounds
  else if s = "assists" then some .assists
  else if s = "blocks" then some .blocks
  else if s = "steals" then some .steals
  else none

/-- Chronological invariant of a PlayerHistory (spec §3): ordered by date
ascending, no two records sharing a date. -/
def Chronological (history : List GameRecord) : Prop :=
  List.Pairwise (fun a b => a.date < b.date) history

/-- Modelled from the spec: §4.2 MatchupFilter's matchup subset — every game
whose opponent equals the requested team, in chronological order, oldest
first. -/
def vsOpponent (history : List GameRecord) (opponentTeam : String) :
    List GameRecord :=
  history.filter (fun g => g.opponent == opponentTeam)

/-- Modelled from the spec: §4.2 MatchupFilter's recency subset — the most
recent `window` games overall, ordered most-recent-first; all available games
when the history is shorter than the window. -/
def recentGames (history : List GameRecord) (window : Nat) : List GameRecord :=
  history.reverse.take window

/-- Modelled from the spec: §4.2's default recency window size. -/
def recencyWindowDefault : Nat := 5

/-- Modelled from the spec: glossary / §4.3 — number of games in an evidence
set whose stat value met or exceeded the threshold. -/
def hitCount (games : List GameRecord) (cat : StatCategory) (threshold : ℚ) :
    Nat :=
  (games.filter (fun g => threshold ≤ (statValue cat g : ℚ))).length

/-- Modelled from the spec: glossary — fraction of games in an evidence set
whose stat value met or exceeded the threshold. -/
def hitRate (games : List GameRecord) (cat : StatCategory) (threshold : ℚ) :
    ℚ :=
  (hitCount games cat threshold : ℚ) / (games.length : ℚ)

/-- Modelled from the spec: §7's error taxonomy. -/
inductive EngineError where
  | UnknownCategory
  | InvalidThreshold
  | PlayerNotFound
  | TeamNotFound
  | SelfMatchup
  | InsufficientData
deriving DecidableEq, Repr

/-- Modelled from the spec: §3 LikelihoodResult — player name, opponent team,
the likelihood percentage, the matchup-subset game list and the
recency-subset game list. -/
structure LikelihoodResult where
  player : String
  team : String
  likelihood : Nat
  games : List GameRecord
  recent_games : List GameRecord
deriving DecidableEq, Repr

/-- Rounding of the nonnegative fraction `num / den` to the nearest whole
number (halves up), in natural-number arithmetic. -/
def roundPct (num den : Nat) : Nat :=
  (2 * num + den) / (2 * den)

/-- Modelled from the spec: §4.3's matchup evidence weight, a configuration
constant (60%). -/
def matchupWeight : ℚ := 6 / 10

/-- Modelled from the spec: §4.3's recency evidence weight, a configuration
constant (40%). -/
def recencyWeight : ℚ := 4 / 10

/-- The 60/40 blended percentage of §4.3 for two non-empty evidence sets, in
exact arithmetic: `100·(6/10·(a/b) + 4/10·(c/d)) = (60·a·d + 40·c·b)/(b·d)`
where `a, c` are the hit counts and `b, d` the evidence-set sizes. -/
def blendPct (vs rcnt : List GameRecord) (cat : StatCategory)
    (threshold : ℚ) : Nat :=
  roundPct (60 * hitCount vs cat threshold * rcnt.length
      + 40 * hitCount rcnt cat threshold * vs.length)
    (vs.length * rcnt.length)

/-- The single-evidence-set percentage of §4.3: `round(100 · a/b)` in exact
arithmetic. -/
def singlePct (games : List GameRecord) (cat : StatCategory)
    (threshold : ℚ) : Nat :=
  roundPct (100 * hitCount games cat threshold) games.length

/-- Modelled from the spec: §4.3/§6/§7 — the LikelihoodEstimator.  Fails with
`InvalidThreshold` when the threshold is not positive; partitions the history
through the MatchupFilter; fails with `InsufficientData` when both evidence
sets are empty; blends the two hit rates 60/40 when both are non-empty; falls
back to the single non-empty set's hit rate otherwise; the percentage is
rounded to the nearest whole point. -/
def estimateLikelihood (player : String) (history : List GameRecord)
    (opponentTeam : String) (cat : StatCategory) (threshold : ℚ)
    (window : Nat) : Except EngineError LikelihoodResult :=
  if threshold ≤ 0 then .error .InvalidThreshold
  else
    let vs := vsOpponent history opponentTeam
    let rcnt := recentGames history window
    if vs = [] then
      if rcnt = [] then .error .InsufficientData
      else .ok ⟨player, opponentTeam, singlePct rcnt cat threshold, vs, rcnt⟩
    else
      if rcnt = [] then
        .ok ⟨player, opponentTeam, singlePct vs cat threshold, vs, rcnt⟩
      else
        .ok ⟨player, opponentTeam, blendPct vs rcnt cat threshold, vs, rcnt⟩

/-- A concrete 10-game history realizing the spec's §8 worked example:
4 games vs "BOS" with points 28, 31, 19, 35, and the most recent 5 games
(dates 6 to 10) with points 25, 40, 18, 30, 22 — so that the
most-recent-first view lists points 22, 30, 18, 40, 25 as in the example. -/
def exampleHistory : List GameRecord :=
  [⟨1, "BOS", 28, 0, 0, 0, 0⟩,
   ⟨2, "BOS", 31, 0, 0, 0, 0⟩,
   ⟨3, "BOS", 19, 0, 0, 0, 0⟩,
   ⟨4, "BOS", 35, 0, 0, 0, 0⟩,
   ⟨5, "NYK", 10, 0, 0, 0, 0⟩,
   ⟨6, "MIA", 25, 0, 0, 0, 0⟩,
   ⟨7, "NYK", 40, 0, 0, 0, 0⟩,
   ⟨8, "LAL", 18, 0, 0, 0, 0⟩,
   ⟨9, "MIA", 30, 0, 0, 0, 0⟩,
   ⟨10, "NYK", 22, 0, 0, 0, 0⟩]

/-- Modelled from the spec: §4.4 — mean of the requested stat category across
a player's available games (first feature-vector component). -/
def meanStat (games : List GameRecord) (cat : StatCategory) : ℚ :=
  ((games.map fun g => (statValue cat g : ℚ)).sum) / (games.length : ℚ)

/-- Modelled from the spec: §4.4's dispersion feature.  §9 records that the
source's exact transform and coefficients are not recoverable and that only
monotonicity and determinism are load-bearing; the dispersion component is
therefore represented by the sample variance (the squared sample standard
deviation), which keeps the feature arithmetic exact. -/
def varStat (games : List GameRecord) (cat : StatCategory) : ℚ :=
  ((games.map fun g => ((statValue cat g : ℚ) - meanStat games cat) ^ 2).sum)
    / ((games.length - 1 : ℕ) : ℚ)

/-- Modelled from the spec: §4.4 — squared distance between the reference's
and a candidate's feature vectors. -/
def featureDistSq (a b : List GameRecord) (cat : StatCategory) : ℚ :=
  (meanStat a cat - meanStat b cat) ^ 2 + (varStat a cat - varStat b cat) ^ 2

/-- Modelled from the spec: §4.4/§9 — a deterministic monotone
inverse-distance transform scaled into [0, 100]: identical profiles score
100 and the score decays as the squared feature distance grows. -/
def similarityScore (refGames candGames : List GameRecord)
    (cat : StatCategory) : ℚ :=
  100 / (1 + featureDistSq refGames candGames cat)

/-- Modelled from the spec: §2/§4.4 — a candidate "tends to clear" the
threshold when the hit rate over their full history (a single evidence set;
no matchup/recency split for candidates) reaches one half. -/
def tendsToClear (games : List GameRecord) (cat : StatCategory)
    (threshold : ℚ) : Bool :=
  decide ((1 : ℚ) / 2 ≤ hitRate games cat threshold)

/-- Modelled from the spec: §3 SimilarityEntry — a player name paired with a
numeric score in [0, 100]. -/
structure SimilarityEntry where
  name : String
  score : ℚ
deriving DecidableEq, Repr

/-- Modelled from the spec: §3/§4.4's ranking order — descending score, ties
broken by ascending alphabetical player name. -/
def simOrder (a b : SimilarityEntry) : Prop :=
  b.score < a.score ∨ (a.score = b.score ∧ a.name ≤ b.name)

instance : DecidableRel simOrder := fun a b => by
  unfold simOrder
  infer_instance

instance : IsTotal SimilarityEntry simOrder where
  total a b := by
    rcases lt_trichotomy a.score b.score with h | h | h
    · exact Or.inr (Or.inl h)
    · rcases le_total a.name b.name with hn | hn
      · exact Or.inl (Or.inr ⟨h, hn⟩)
      · exact Or.inr (Or.inr ⟨h.symm, hn⟩)
    · exact Or.inl (Or.inl h)

instance : IsTrans SimilarityEntry simOrder where
  trans a b c hab hbc := by
    rcases hab with hab | ⟨hab, han⟩
    · rcases hbc with hbc | ⟨hbc, _⟩
      · exact Or.inl (hbc.trans hab)
      · exact Or.inl (hbc ▸ hab)
    · rcases hbc with hbc | ⟨hbc, hbn⟩
      · exact Or.inl (hab ▸ hbc)
      · exact Or.inr ⟨hab.trans hbc, han.trans hbn⟩

/-- Modelled from the spec: §4.4/§6 — the SimilarityIndex.  Every candidate
in the externally supplied pool, other than the reference player, that has at
least one game and tends to clear the same threshold is scored against the
reference player's feature vector; entries are ranked by descending score
with alphabetical tie-break and truncated to the top 5.  The opponent
argument only scopes the externally sourced candidate pool and does not enter
the scoring. -/
def recommendSimilar (refPlayer : String)
    (histories : String → List GameRecord) (opponentTeam : String)
    (cat : StatCategory) (threshold : ℚ) (candidatePool : List String) :
    List SimilarityEntry :=
  let refGames := histories refPlayer
  let candidates := candidatePool.filter fun p =>
    p != refPlayer && !(histories p).isEmpty
      && tendsToClear (histories p) cat threshold
  let entries := candidates.map fun p =>
    (⟨p, similarityScore refGames (histories p) cat⟩ : SimilarityEntry)
  (List.insertionSort simOrder entries).take 5

/-- A concrete GameLogStore view for witnesses: "Alice" has the ten-game
example history, "Bob" has a single game, everyone else has none. -/
def sampleHistories : String → List GameRecord := fun p =>
  if p = "Alice" then exampleHistory
  else if p = "Bob" then [⟨1, "BOS", 30, 0, 0, 0, 0⟩]
  else []

/-- Modelled from the spec: §3 ThresholdQuery — player name, opponent team
name, stat category, numeric threshold. -/
structure ThresholdQuery where
  player : String
  opponent : String
  category : StatCategory
  threshold : ℚ
deriving DecidableEq, Repr

/-- Modelled from the spec: §3's ThresholdQuery invariant and §7's taxonomy —
a request whose opponent equals the player's own team is rejected with
`SelfMatchup`; a non-positive threshold is rejected with `InvalidThreshold`. -/
def validateThresholdQuery (playerTeam : String) (q : ThresholdQuery) :
    Except EngineError Unit :=
  if q.opponent = playerTeam then .error .SelfMatchup
  else if q.threshold ≤ 0 then .error .InvalidThreshold
  else .ok ()

/-- Modelled from the spec: §4.5 TrendAggregator — the full chronological
sequence of (date, value) pairs, oldest first, with no filtering or
aggregation beyond the category projection; an empty sequence (not an error)
for a player with no recorded games. -/
def getTrend (history : List GameRecord) (cat : StatCategory) :
    List (Nat × Int) :=
  history.map fun g => (g.date, statValue cat g)

end NbaEngine

namespace PredictionForm

/-- One entry of the react-select team dropdown (`{ label: team, value:
team }` in `PredictionForm.js`). -/
structure TeamOption where
  label : String
  value : String
deriving DecidableEq, Repr

/-- Embedded from `PredictionForm.js`: `const filteredTeams = teams.filter(
(team) => team.value !== playerTeam);` — the opponent dropdown never offers
the selected player's own team. -/
def filteredTeams (teams : List TeamOption) (playerTeam : String) :
    List TeamOption :=
  teams.filter fun team => team.value != playerTeam

/-- One raw game row as consumed by the frontend tables and charts
(`GAME_DATE`, `MATCHUP` and the five stat columns). -/
structure GameRow where
  GAME_DATE : String
  MATCHUP : String
  PTS : Int
  REB : Int
  AST : Int
  BLK : Int
  STL : Int
deriving DecidableEq, Repr

/-- The prediction payload rendered by `PredictionForm.js`: player, team,
likelihood text, the matchup game log and the recent game log. -/
structure PredictionData where
  player : String
  team : String
  likelihood : String
  games : List GameRow
  recent_games : List GameRow
deriving DecidableEq, Repr

/-- One similar-player recommendation as rendered by `PredictionForm.js`. -/
structure RecEntry where
  player_name : String
  likelihood : ℚ
deriving DecidableEq, Repr

/-- The `recommend-players` response payload; its `recommendations` field may
be absent (`recData.recommendations || []` in the source). -/
structure RecData where
  recommendations : Option (List RecEntry)
deriving DecidableEq, Repr

/-- The `player-trends` response payload. -/
structure TrendsData where
  trends : List GameRow
deriving DecidableEq, Repr

/-- Observable outcome of one `await fetch(...)` plus `await
response.json()`: an HTTP-ok response with parsed data, a non-ok response
(whose parsed body may carry an `error` field), or a thrown error (network
failure or JSON parse failure). -/
inductive FetchResult (α : Type) where
  | ok (data : α)
  | notOk (errorField : Option String)
  | throws
deriving DecidableEq, Repr

/-- The React component state of `PredictionForm.js` (the `useState`
variables read or written by `handleSubmit`). -/
structure FormState where
  playerName : String
  teamName : String
  threshold : String
  statType : String
  playerTeam : String
  fetchRecommendations : Bool
  prediction : Option PredictionData
  errorMessage : String
  loading : Bool
  recommendations : List RecEntry
  showCharts : Bool
  playerTrends : List GameRow
deriving DecidableEq, Repr

/-- The catch-branch message of `handleSubmit`. -/
def connectionErrorMessage : String :=
  "Failed to fetch prediction. Please check your connection."

/-- The fallback message for a non-ok response without an error field. -/
def defaultErrorMessage : String :=
  "An error occurred. Please try again."

/-- JavaScript truthiness of `data.error || "An error occurred. Please try
again."`: an absent or empty (falsy) error field falls back to the default
message. -/
def errorOrDefault : Option String → String
  | none => defaultErrorMessage
  | some s => if s = "" then defaultErrorMessage else s

/-- The three fetches `handleSubmit` can issue in one submission: the
prediction endpoint, the `recommend-players` endpoint and the
`player-trends` endpoint. -/
structure SubmitOutcome where
  primary : FetchResult PredictionData
  recommendationsFetch : FetchResult RecData
  trendsFetch : FetchResult TrendsData
deriving DecidableEq, Repr

/-- The tail of `handleSubmit`'s ok branch: the `player-trends` fetch.  An ok
response stores the trends; a non-ok response changes nothing; a thrown error
transfers control to the catch branch, which sets the connection error
message. -/
def applyTrendsFetch (s : FormState) (t : FetchResult TrendsData) :
    FormState :=
  match t with
  | .ok td => { s with playerTrends := td.trends }
  | .notOk _ => s
  | .throws => { s with errorMessage := connectionErrorMessage }

/-- Embedded from `PredictionForm.js` `handleSubmit`: clears the error
message, the prediction and the trends and sets `loading`; on an HTTP-ok
primary response stores the prediction, enables the charts and issues the
secondary fetches (recommendations only when the checkbox is set); on a
non-ok primary response stores `data.error` or the default message; any
thrown error lands in the catch branch, which stores the connection error
message; `finally` clears `loading`. -/
def handleSubmit (s : FormState) (o : SubmitOutcome) : FormState :=
  let s0 : FormState :=
    { s with errorMessage := "", prediction := none,
             playerTrends := [], loading := true }
  let s1 :=
    match o.primary with
    | .ok data =>
        let s2 : FormState :=
          { s0 with prediction := some data, showCharts := true }
        if s2.fetchRecommendations then
          match o.recommendationsFetch with
          | .ok recData =>
              applyTrendsFetch
                { s2 with
                    recommendations := recData.recommendations.getD [] }
                o.trendsFetch
          | .notOk _ => applyTrendsFetch s2 o.trendsFetch
          | .throws => { s2 with errorMessage := connectionErrorMessage }
        else applyTrendsFetch s2 o.trendsFetch
    | .notOk e => { s0 with errorMessage := errorOrDefault e }
    | .throws => { s0 with errorMessage := connectionErrorMessage }
  { s1 with loading := false }

/-- A concrete successfully parsed prediction payload. -/
def sampleData : PredictionData :=
  ⟨"LeBron James", "BOS", "69%", [], []⟩

/-- A concrete pre-submission component state. -/
def initialState : FormState :=
  ⟨"LeBron James", "BOS", "25", "points", "LAL", false,
   none, "", false, [], false, []⟩

/-- A submission whose primary prediction fetch succeeds but whose
`player-trends` fetch throws. -/
def trendsThrowOutcome : SubmitOutcome :=
  ⟨.ok sampleData, .notOk none, .throws⟩

/-- A submission whose primary prediction fetch returns a non-ok response
with no error field in the body. -/
def primaryFailOutcome : SubmitOutcome :=
  ⟨.notOk none, .notOk none, .notOk none⟩

end PredictionForm

namespace NbaEngine

theorem roundPct_eq_round (num den : Nat) (h : 0 < den) :
    (roundPct num den : ℤ) = round ((num : ℚ) / (den : ℚ)) := by
  have hden : ((den : ℚ)) ≠ 0 := Nat.cast_ne_zero.mpr h.ne'
  rw [round_eq]
  have hx : (num : ℚ) / (den : ℚ) + 1 / 2
      = ((2 * num + den : ℕ) : ℤ) / (((2 * den : ℕ) : ℤ) : ℚ) := by
    push_cast
    field_simp
    ring
  rw [hx]
  rw [show ((((2 * den : ℕ) : ℤ) : ℚ)) = (((2 * den : ℕ) : ℚ)) by
    push_cast; ring]
  rw [Rat.floor_intCast_div_natCast]
  unfold roundPct
  rw [Int.ofNat_tdiv]
  rw [Int.tdiv_eq_ediv (by positivity) (by positivity)]

theorem blendPct_eq_round (vs rcnt : List GameRecord) (cat : StatCategory)
    (threshold : ℚ) (hvs : vs ≠ []) (hrc : rcnt ≠ []) :
    (blendPct vs rcnt cat threshold : ℤ)
      = round (100 * (matchupWeight * hitRate vs cat threshold
          + recencyWeight * hitRate rcnt cat threshold)) := by
  have hb : 0 < vs.length := List.length_pos.mpr hvs
  have hd : 0 < rcnt.length := List.length_pos.mpr hrc
  have hb' : ((vs.length : ℚ)) ≠ 0 := Nat.cast_ne_zero.mpr hb.ne'
  have hd' : ((rcnt.length : ℚ)) ≠ 0 := Nat.cast_ne_zero.mpr hd.ne'
  unfold blendPct
  rw [roundPct_eq_round _ _ (Nat.mul_pos hb hd)]
  congr 1
  unfold hitRate matchupWeight recencyWeight
  push_cast
  field_simp
  ring

theorem singlePct_eq_round (games : List GameRecord) (cat : StatCategory)
    (threshold : ℚ) (hg : games ≠ []) :
    (singlePct games cat threshold : ℤ)
      = round (hitRate games cat threshold * 100) := by
  have hb : 0 < games.length := List.length_pos.mpr hg
  have hb' : ((games.length : ℚ)) ≠ 0 := Nat.cast_ne_zero.mpr hb.ne'
  unfold singlePct
  rw [roundPct_eq_round _ _ hb]
  congr 1
  unfold hitRate
  push_cast
  field_simp
  ring

/-- C1 (amended): for every call to `estimateLikelihood` with a positive
threshold where both the vsOpponent evidence set and the recent evidence set
are non-empty, the returned likelihood percentage equals
`round(100 · (0.6 · hitRate(vsOpponent) + 0.4 · hitRate(recent)))`; on the
spec's worked example this evaluates to 69%, not 54% (the hit count of
{28, 31, 19, 35} against threshold 25 is 3, not 2). -/
theorem estimateLikelihood_blend (player : String)
    (history : List GameRecord) (opponentTeam : String) (cat : StatCategory)
    (threshold : ℚ) (window : Nat)
    (hth : 0 < threshold)
    (hvs : vsOpponent history opponentTeam ≠ [])
    (hrc : recentGames history window ≠ []) :
    estimateLikelihood player history opponentTeam cat threshold window
        = Except.ok ⟨player, opponentTeam,
            blendPct (vsOpponent history opponentTeam)
              (recentGames history window) cat threshold,
            vsOpponent history opponentTeam, recentGames history window⟩
      ∧ (blendPct (vsOpponent history opponentTeam)
            (recentGames history window) cat threshold : ℤ)
          = round (100 * (matchupWeight
              * hitRate (vsOpponent history opponentTeam) cat threshold
              + recencyWeight
              * hitRate (recentGames history window) cat threshold)) := by
  refine ⟨?_, blendPct_eq_round _ _ _ _ hvs hrc⟩
  simp only [estimateLikelihood]
  rw [if_neg (not_le.mpr hth), if_neg hvs, if_neg hrc]

theorem estimateLikelihood_blend_witness :
    (0 : ℚ) < 25
    ∧ vsOpponent exampleHistory "BOS" ≠ []
    ∧ recentGames exampleHistory 5 ≠ []
    ∧ (estimateLikelihood "Player" exampleHistory "BOS" StatCategory.points
          25 5
        = Except.ok ⟨"Player", "BOS",
            blendPct (vsOpponent exampleHistory "BOS")
              (recentGames exampleHistory 5) StatCategory.points 25,
            vsOpponent exampleHistory "BOS", recentGames exampleHistory 5⟩
      ∧ (blendPct (vsOpponent exampleHistory "BOS")
            (recentGames exampleHistory 5) StatCategory.points 25 : ℤ)
          = round (100 * (matchupWeight
              * hitRate (vsOpponent exampleHistory "BOS")
                  StatCategory.points 25
              + recencyWeight
              * hitRate (recentGames exampleHistory 5)
                  StatCategory.points 25))) :=
  ⟨by decide, by decide, by decide,
   estimateLikelihood_blend "Player" exampleHistory "BOS" StatCategory.points
     25 5 (by decide) (by decide) (by decide)⟩

/-- C1 counterexample: on the spec's §8 worked example (4 games vs "BOS"
with points 28, 31, 19, 35; most recent 5 games with points 22, 30, 18, 40,
25; threshold 25) `estimateLikelihood` returns 69%, not the 54% the claim
asserts. -/
theorem estimateLikelihood_example_is_69_not_54 :
    (estimateLikelihood "Player" exampleHistory "BOS" StatCategory.points
        25 5).toOption.map LikelihoodResult.likelihood = some 69
    ∧ (estimateLikelihood "Player" exampleHistory "BOS" StatCategory.points
        25 5).toOption.map LikelihoodResult.likelihood ≠ some 54 := by
  constructor
  · decide
  · decide

/-- C2: for every call to `estimateLikelihood` with a positive threshold
where the vsOpponent evidence set is empty and the recent evidence set is
non-empty, the call succeeds and the returned likelihood equals
`round(hitRate(recent) · 100)` — the recency hit rate alone. -/
theorem estimateLikelihood_recency_fallback (player : String)
    (history : List GameRecord) (opponentTeam : String) (cat : StatCategory)
    (threshold : ℚ) (window : Nat)
    (hth : 0 < threshold)
    (hvs : vsOpponent history opponentTeam = [])
    (hrc : recentGames history window ≠ []) :
    estimateLikelihood player history opponentTeam cat threshold window
        = Except.ok ⟨player, opponentTeam,
            singlePct (recentGames history window) cat threshold,
            [], recentGames history window⟩
      ∧ (singlePct (recentGames history window) cat threshold : ℤ)
          = round (hitRate (recentGames history window) cat threshold
              * 100) := by
  refine ⟨?_, singlePct_eq_round _ _ _ hrc⟩
  simp only [estimateLikelihood]
  rw [if_neg (not_le.mpr hth), if_pos hvs, if_neg hrc, hvs]

theorem estimateLikelihood_recency_fallback_witness :
    (0 : ℚ) < 25
    ∧ vsOpponent exampleHistory "CHI" = []
    ∧ recentGames exampleHistory 5 ≠ []
    ∧ (estimateLikelihood "Player" exampleHistory "CHI" StatCategory.points
          25 5
        = Except.ok ⟨"Player", "CHI",
            singlePct (recentGames exampleHistory 5) StatCategory.points 25,
            [], recentGames exampleHistory 5⟩
      ∧ (singlePct (recentGames exampleHistory 5) StatCategory.points
            25 : ℤ)
          = round (hitRate (recentGames exampleHistory 5) StatCategory.points
              25 * 100)) :=
  ⟨by decide, by decide, by decide,
   estimateLikelihood_recency_fallback "Player" exampleHistory "CHI"
     StatCategory.points 25 5 (by decide) (by decide) (by decide)⟩

/-- C3: for every call to `estimateLikelihood` with a positive threshold
where both evidence sets are empty, the call fails with `InsufficientData`
and never returns any numeric likelihood. -/
theorem estimateLikelihood_insufficient_data (player : String)
    (history : List GameRecord) (opponentTeam : String) (cat : StatCategory)
    (threshold : ℚ) (window : Nat)
    (hth : 0 < threshold)
    (hvs : vsOpponent history opponentTeam = [])
    (hrc : recentGames history window = []) :
    estimateLikelihood player history opponentTeam cat threshold window
        = Except.error EngineError.InsufficientData
      ∧ (estimateLikelihood player history opponentTeam cat threshold
          window).toOption.map LikelihoodResult.likelihood = none := by
  have h : estimateLikelihood player history opponentTeam cat threshold window
      = Except.error EngineError.InsufficientData := by
    simp only [estimateLikelihood]
    rw [if_neg (not_le.mpr hth), if_pos hvs, if_pos hrc]
  exact ⟨h, by rw [h]; rfl⟩

theorem estimateLikelihood_insufficient_data_witness :
    (0 : ℚ) < 25
    ∧ vsOpponent [] "BOS" = []
    ∧ recentGames [] 5 = []
    ∧ (estimateLikelihood "Rookie" [] "BOS" StatCategory.points 25 5
        = Except.error EngineError.InsufficientData
      ∧ (estimateLikelihood "Rookie" [] "BOS" StatCategory.points 25
          5).toOption.map LikelihoodResult.likelihood = none) :=
  ⟨by decide, by decide, by decide,
   estimateLikelihood_insufficient_data "Rookie" [] "BOS" StatCategory.points
     25 5 (by decide) (by decide) (by decide)⟩

/-- C8: for every call to `estimateLikelihood` with a threshold ≤ 0, the
call fails with `InvalidThreshold`. -/
theorem estimateLikelihood_invalid_threshold (player : String)
    (history : List GameRecord) (opponentTeam : String) (cat : StatCategory)
    (threshold : ℚ) (window : Nat)
    (hth : threshold ≤ 0) :
    estimateLikelihood player history opponentTeam cat threshold window
      = Except.error EngineError.InvalidThreshold := by
  simp only [estimateLikelihood]
  rw [if_pos hth]

/-- C8 witness: a threshold of exactly 0 fails with `InvalidThreshold`. -/
theorem estimateLikelihood_invalid_threshold_witness :
    (0 : ℚ) ≤ 0
    ∧ estimateLikelihood "Player" exampleHistory "BOS" StatCategory.points
        0 5 = Except.error EngineError.InvalidThreshold :=
  ⟨by decide,
   estimateLikelihood_invalid_threshold "Player" exampleHistory "BOS"
     StatCategory.points 0 5 (by decide)⟩

end NbaEngine

namespace NbaEngine

/-- C4: `recommendSimilar` never includes the reference player, returns at
most 5 entries, and is sorted descending by similarity score with ties
broken by ascending alphabetical player name. -/
theorem recommendSimilar_ranked (refPlayer : String)
    (histories : String → List GameRecord) (opponentTeam : String)
    (cat : StatCategory) (threshold : ℚ) (candidatePool : List String) :
    refPlayer ∉ (recommendSimilar refPlayer histories opponentTeam cat
        threshold candidatePool).map SimilarityEntry.name
    ∧ (recommendSimilar refPlayer histories opponentTeam cat threshold
        candidatePool).length ≤ 5
    ∧ List.Sorted simOrder (recommendSimilar refPlayer histories opponentTeam
        cat threshold candidatePool) := by
  refine ⟨?_, ?_, ?_⟩
  · intro hmem
    simp only [recommendSimilar, List.mem_map] at hmem
    obtain ⟨e, he, hname⟩ := hmem
    have he' := List.take_subset _ _ he
    rw [List.mem_insertionSort, List.mem_map] at he'
    obtain ⟨p, hp, rfl⟩ := he'
    rw [List.mem_filter] at hp
    have hcond := hp.2
    simp only [Bool.and_eq_true, bne_iff_ne] at hcond
    exact hcond.1.1 hname
  · simp only [recommendSimilar]
    exact List.length_take_le _ _
  · simp only [recommendSimilar]
    exact (List.sorted_insertionSort simOrder _).sublist
      (List.take_sublist _ _)

theorem recommendSimilar_ranked_witness :
    ("Alice" : String) ∉ (recommendSimilar "Alice" sampleHistories "BOS"
        StatCategory.points 25 ["Alice", "Bob", "Carol"]).map
        SimilarityEntry.name
    ∧ (recommendSimilar "Alice" sampleHistories "BOS" StatCategory.points 25
        ["Alice", "Bob", "Carol"]).length ≤ 5
    ∧ List.Sorted simOrder (recommendSimilar "Alice" sampleHistories "BOS"
        StatCategory.points 25 ["Alice", "Bob", "Carol"]) :=
  recommendSimilar_ranked "Alice" sampleHistories "BOS" StatCategory.points
    25 ["Alice", "Bob", "Carol"]

/-- C5: `recommendSimilar` is deterministic — identical inputs (reference
player, history store, opponent, category, threshold, candidate pool)
produce identical ranked lists with identical scores in identical order. -/
theorem recommendSimilar_deterministic
    (ref₁ ref₂ : String) (hist₁ hist₂ : String → List GameRecord)
    (opp₁ opp₂ : String) (cat₁ cat₂ : StatCategory) (thr₁ thr₂ : ℚ)
    (pool₁ pool₂ : List String)
    (h₁ : ref₁ = ref₂) (h₂ : hist₁ = hist₂) (h₃ : opp₁ = opp₂)
    (h₄ : cat₁ = cat₂) (h₅ : thr₁ = thr₂) (h₆ : pool₁ = pool₂) :
    recommendSimilar ref₁ hist₁ opp₁ cat₁ thr₁ pool₁
      = recommendSimilar ref₂ hist₂ opp₂ cat₂ thr₂ pool₂ := by
  subst h₁ h₂ h₃ h₄ h₅ h₆
  rfl

theorem recommendSimilar_deterministic_witness :
    recommendSimilar "Alice" sampleHistories "BOS" StatCategory.points 25
        ["Bob", "Carol"]
      = recommendSimilar "Alice" sampleHistories "BOS" StatCategory.points 25
        ["Bob", "Carol"] :=
  recommendSimilar_deterministic "Alice" "Alice" sampleHistories
    sampleHistories "BOS" "BOS" StatCategory.points StatCategory.points 25 25
    ["Bob", "Carol"] ["Bob", "Carol"] rfl rfl rfl rfl rfl rfl

/-- C6: every candidate whose history contains no games is absent from the
returned ranking, rather than being included with a score of 0. -/
theorem recommendSimilar_excludes_empty_history (refPlayer : String)
    (histories : String → List GameRecord) (opponentTeam : String)
    (cat : StatCategory) (threshold : ℚ) (candidatePool : List String)
    (c : String) (hc : histories c = []) :
    c ∉ (recommendSimilar refPlayer histories opponentTeam cat threshold
        candidatePool).map SimilarityEntry.name := by
  intro hmem
  simp only [recommendSimilar, List.mem_map] at hmem
  obtain ⟨e, he, hname⟩ := hmem
  have he' := List.take_subset _ _ he
  rw [List.mem_insertionSort, List.mem_map] at he'
  obtain ⟨p, hp, rfl⟩ := he'
  rw [List.mem_filter] at hp
  have hcond := hp.2
  simp only [Bool.and_eq_true, bne_iff_ne, Bool.not_eq_true'] at hcond
  have hne : (histories p).isEmpty = false := hcond.1.2
  have hpc : p = c := hname
  rw [hpc, hc] at hne
  simp at hne

theorem recommendSimilar_excludes_empty_history_witness :
    sampleHistories "Carol" = []
    ∧ ("Carol" : String) ∉ (recommendSimilar "Alice" sampleHistories "BOS"
        StatCategory.points 25 ["Bob", "Carol"]).map SimilarityEntry.name :=
  ⟨by decide,
   recommendSimilar_excludes_empty_history "Alice" sampleHistories "BOS"
     StatCategory.points 25 ["Bob", "Carol"] "Carol" (by decide)⟩

/-- C9: `getTrend` returns exactly one (date, value) pair per game, in the
history's own (ascending-date) order, with no filtering or aggregation
beyond projecting the category; for a player with no games it returns the
empty sequence rather than an error. -/
theorem getTrend_spec (history : List GameRecord) (cat : StatCategory)
    (hchron : Chronological history) :
    (getTrend history cat).length = history.length
    ∧ getTrend history cat = history.map (fun g => (g.date, statValue cat g))
    ∧ List.Pairwise (fun a b : Nat × Int => a.1 < b.1) (getTrend history cat)
    ∧ (history = [] → getTrend history cat = []) := by
  refine ⟨by simp [getTrend], rfl, ?_, ?_⟩
  · exact hchron.map _ (fun a b h => h)
  · intro h
    rw [h]
    rfl

theorem getTrend_spec_witness :
    Chronological exampleHistory
    ∧ ((getTrend exampleHistory StatCategory.points).length
          = exampleHistory.length
      ∧ getTrend exampleHistory StatCategory.points
          = exampleHistory.map (fun g => (g.date, statValue .points g))
      ∧ List.Pairwise (fun a b : Nat × Int => a.1 < b.1)
          (getTrend exampleHistory StatCategory.points)
      ∧ (exampleHistory = []
          → getTrend exampleHistory StatCategory.points = [])) :=
  ⟨by unfold Chronological; decide,
   getTrend_spec exampleHistory StatCategory.points
     (by unfold Chronological; decide)⟩

end NbaEngine

/-- C7: a ThresholdQuery whose opponent equals the player's own team is
rejected with `SelfMatchup`; and in the frontend the opponent dropdown
(`filteredTeams`) never offers the player's own team, so the set of opponent
teams a request may carry never includes it. -/
theorem selfMatchup_rejected :
    (∀ (playerTeam : String) (q : NbaEngine.ThresholdQuery),
        q.opponent = playerTeam →
          NbaEngine.validateThresholdQuery playerTeam q
            = Except.error NbaEngine.EngineError.SelfMatchup)
    ∧ ∀ (teams : List PredictionForm.TeamOption) (playerTeam : String)
        (t : PredictionForm.TeamOption),
        t ∈ PredictionForm.filteredTeams teams playerTeam →
          t.value ≠ playerTeam := by
  constructor
  · intro playerTeam q h
    simp only [NbaEngine.validateThresholdQuery]
    rw [if_pos h]
  · intro teams playerTeam t ht
    rw [PredictionForm.filteredTeams, List.mem_filter] at ht
    simpa using ht.2

theorem selfMatchup_rejected_witness :
    NbaEngine.ThresholdQuery.opponent
        ⟨"LeBron James", "LAL", NbaEngine.StatCategory.points, 25⟩ = "LAL"
    ∧ NbaEngine.validateThresholdQuery "LAL"
        ⟨"LeBron James", "LAL", NbaEngine.StatCategory.points, 25⟩
        = Except.error NbaEngine.EngineError.SelfMatchup
    ∧ (⟨"Boston Celtics", "BOS"⟩ : PredictionForm.TeamOption)
        ∈ PredictionForm.filteredTeams
          [⟨"Boston Celtics", "BOS"⟩, ⟨"Los Angeles Lakers", "LAL"⟩] "LAL"
    ∧ PredictionForm.TeamOption.value ⟨"Boston Celtics", "BOS"⟩ ≠ "LAL" :=
  ⟨rfl,
   selfMatchup_rejected.1 "LAL"
     ⟨"LeBron James", "LAL", NbaEngine.StatCategory.points, 25⟩ rfl,
   by decide,
   selfMatchup_rejected.2
     [⟨"Boston Celtics", "BOS"⟩, ⟨"Los Angeles Lakers", "LAL"⟩] "LAL"
     ⟨"Boston Celtics", "BOS"⟩ (by decide)⟩

namespace PredictionForm

theorem errorOrDefault_ne_empty (e : Option String) :
    errorOrDefault e ≠ "" := by
  cases e with
  | none => simp [errorOrDefault, defaultErrorMessage]
  | some s =>
    by_cases hs : s = "" <;>
      simp [errorOrDefault, hs, defaultErrorMessage]

/-- C10 (amended): `handleSubmit` clears the prediction at the start of
every submission and assigns it only on an HTTP-ok primary response, so
whenever the primary prediction fetch ends with a non-ok response or throws,
the final prediction is null and an error message is set.  (When a secondary
recommendations/trends fetch throws after an ok primary response, the error
message is set while the just-assigned prediction remains displayed.) -/
theorem handleSubmit_primary_failure (s : FormState) (o : SubmitOutcome)
    (h : o.primary = .throws ∨ ∃ e, o.primary = .notOk e) :
    (handleSubmit s o).prediction = none
    ∧ (handleSubmit s o).errorMessage ≠ "" := by
  obtain h | ⟨e, h⟩ := h
  · simp [handleSubmit, h, connectionErrorMessage]
  · simp [handleSubmit, h, errorOrDefault_ne_empty]

theorem handleSubmit_primary_failure_witness :
    (SubmitOutcome.primary primaryFailOutcome = .throws
      ∨ ∃ e, SubmitOutcome.primary primaryFailOutcome
          = FetchResult.notOk e)
    ∧ ((handleSubmit initialState primaryFailOutcome).prediction = none
      ∧ (handleSubmit initialState primaryFailOutcome).errorMessage ≠ "") :=
  ⟨Or.inr ⟨none, rfl⟩,
   handleSubmit_primary_failure initialState primaryFailOutcome
     (Or.inr ⟨none, rfl⟩)⟩

/-- C10 counterexample: a submission whose primary fetch succeeds but whose
`player-trends` fetch throws ends with the connection error message set
while the prediction remains displayed — so a submission ending in a thrown
fetch error does not always leave the prediction null. -/
theorem handleSubmit_error_alongside_prediction :
    (handleSubmit initialState trendsThrowOutcome).prediction
        = some sampleData
    ∧ (handleSubmit initialState trendsThrowOutcome).errorMessage
        = connectionErrorMessage
    ∧ connectionErrorMessage ≠ "" := by
  refine ⟨by decide, by decide, by decide⟩

end PredictionForm
